import Mathlib

/-!
Shallow embedding of `src/prow/spyglass/artifacts.go` (package spyglass):
`splitSrc`, `Spyglass.prowToGCS`, `Spyglass.ListArtifacts` and
`Spyglass.FetchArtifacts`, together with the Go `strings` operations the
file uses.  External collaborators (the GCS artifact fetcher, the pod-log
fetcher, the prow-job agent and the configuration accessor) are fields of
the `Spyglass` record, so every theorem quantifies over their behaviour.
Go's `(value, error)` return convention is kept as a pair of the value and
an `Option String` error.
-/

/-- Go `strings.SplitN(src, "/", 2)`, on the character list: `none` when no
separator occurs, otherwise the text before the first `'/'` and everything
after it. -/
def splitFirstSlash : List Char → Option (List Char × List Char)
  | [] => none
  | c :: cs =>
    if c = '/' then some ([], cs)
    else
      match splitFirstSlash cs with
      | none => none
      | some (a, b) => some (c :: a, b)

/-- Go `strings.Split(s, "/")` on the character list; like Go, it always
returns at least one element and keeps empty segments. -/
def splitSlashList : List Char → List String
  | [] => [""]
  | c :: cs =>
    if c = '/' then "" :: splitSlashList cs
    else
      match splitSlashList cs with
      | [] => [⟨[c]⟩]
      | r :: rs => (⟨c :: r.data⟩) :: rs

/-- Go `strings.Split(s, "/")`. -/
def goSplitSlash (s : String) : List String := splitSlashList s.data

/-- Go `strings.TrimSuffix(s, "/")`: remove one trailing separator when
present. -/
def trimSuffixSlash (s : String) : String :=
  if s.data.getLast? = some '/' then ⟨s.data.dropLast⟩ else s

/-- Go `strings.HasPrefix(s, pre)`. -/
def goHasPrefix (s pre : String) : Bool := pre.data.isPrefixOf s.data

/-- Go byte-slicing `s[len(pre):]`, used in `prowToGCS` after the
`HasPrefix` check. -/
def dropPrefixStr (s pre : String) : String := ⟨s.data.drop pre.data.length⟩

/-- `artifacts.go` lines 156-164: split a source reference into a key type
and a key on the first separator; error when no separator is present. -/
def splitSrc (src : String) : Except String (String × String) :=
  match splitFirstSlash src.data with
  | none => .error ("invalid src " ++ src ++ ": expected <key-type>/<key>")
  | some (kt, k) => .ok (⟨kt⟩, ⟨k⟩)

/-- Modelled from the spec: the prow job record's status, of which this core
reads only the URL (`job.Status.URL`); the ProwJob type lives outside
`src/`. -/
structure ProwJobStatus where
  URL : String
deriving DecidableEq

/-- Modelled from the spec: the job record returned by the job-metadata
lookup collaborator. -/
structure ProwJob where
  Status : ProwJobStatus
deriving DecidableEq

/-- Modelled from the spec: `ArtifactHandle: { name, sizeLimit }`; the
`lenses.Artifact` interface lives outside `src/`, and creating a handle
performs no I/O (the size probe is a collaborator call, a field of
`Spyglass` below). -/
structure Artifact where
  name : String
  sizeLimit : Int
deriving DecidableEq

/-- The `Spyglass` receiver: the two kind tokens and the configured URL
prefix (constants of the surrounding system, modelled from the spec as
opaque parameters), plus the injected collaborators of `artifacts.go`:
`jobAgent.GetProwJob`, `GCSArtifactFetcher.artifacts`,
`GCSArtifactFetcher.artifact`, the `Artifact.Size` probe and
`PodLogArtifactFetcher.artifact`. -/
structure Spyglass where
  gcsKeyType : String
  prowKeyType : String
  jobURLPrefix : String
  getProwJob : String → String → Except String ProwJob
  gcsArtifacts : String → List String × Option String
  gcsArtifact : String → String → Int → Except String Artifact
  artifactSize : Artifact → Except String Int
  podLogArtifact : String → String → Int → Except String Artifact

/-- `artifacts.go` lines 66-85: translate a prow key `jobName/buildID` into
a GCS key by looking the job up and stripping the configured URL prefix
from its status URL. -/
def Spyglass.prowToGCS (s : Spyglass) (prowKey : String) : Except String String :=
  let parsed := goSplitSlash prowKey
  if parsed.length ≠ 2 then
    .error ("Could not get GCS src: prow src " ++ prowKey ++ " incorrectly formatted")
  else
    let jobName := parsed.getD 0 ""
    let buildID := parsed.getD 1 ""
    match s.getProwJob jobName buildID with
    | .error e => .error ("Failed to get prow job from src " ++ prowKey ++ ": " ++ e)
    | .ok job =>
      let url := job.Status.URL
      let pfx := s.jobURLPrefix
      if !goHasPrefix url pfx then
        .error ("unexpected job URL " ++ url ++ " when finding GCS path: expected something starting with " ++ pfx)
      else
        .ok (dropPrefixStr url pfx)

/-- The GCS key `ListArtifacts` hands to the listing collaborator
(`artifacts.go` lines 34-44): the key verbatim for a storage-addressed
reference, the resolved key for a job-addressed one, and `""` when job
resolution fails (the error is only logged). -/
def Spyglass.listGCSKey (s : Spyglass) (keyType key : String) : String :=
  if keyType = s.gcsKeyType then key
  else
    match s.prowToGCS key with
    | .ok k => k
    | .error _ => ""

/-- `artifacts.go` lines 46-62: the listing outcome `(names, err)` of the
storage collaborator, with "build-log.txt" appended whenever the listing
errored or the name is missing. -/
def listWithLogPolicy (outcome : List String × Option String) : List String :=
  let artifactNames := outcome.1
  let logFound := artifactNames.contains "build-log.txt"
  if outcome.2.isSome || !logFound then artifactNames ++ ["build-log.txt"]
  else artifactNames

/-- `artifacts.go` lines 29-63: `Spyglass.ListArtifacts`. -/
def Spyglass.ListArtifacts (s : Spyglass) (src : String) : List String × Option String :=
  match splitSrc src with
  | .error e => ([], some ("error parsing src: " ++ e))
  | .ok (keyType, key) =>
    if keyType = s.gcsKeyType ∨ keyType = s.prowKeyType then
      (listWithLogPolicy (s.gcsArtifacts (s.listGCSKey keyType key)), none)
    else ([], some ("Unrecognized key type for src: " ++ src))

/-- `artifacts.go` lines 125-131: obtain a handle from the GCS collaborator
and force the existence probe by reading its size; `none` when either step
fails. -/
def Spyglass.fetchStep (s : Spyglass) (gcsKey name : String) (sizeLimit : Int) : Option Artifact :=
  match s.gcsArtifact gcsKey name sizeLimit with
  | .error _ => none
  | .ok art =>
    match s.artifactSize art with
    | .error _ => none
    | .ok _ => some art

/-- `artifacts.go` lines 123-141: the per-name fetch loop, returning the
successfully probed handles in request order and whether a failure on
"build-log.txt" set the pod-log-needed flag. -/
def Spyglass.fetchLoop (s : Spyglass) (gcsKey : String) (sizeLimit : Int) : List String → List Artifact × Bool
  | [] => ([], false)
  | name :: rest =>
    let tail := s.fetchLoop gcsKey sizeLimit rest
    match s.fetchStep gcsKey name sizeLimit with
    | some art => (art :: tail.1, tail.2)
    | none => if name = "build-log.txt" then (tail.1, true) else tail

/-- `artifacts.go` lines 143-150: when the pod-log flag is set, ask the
pod-log collaborator for a handle and append it on success; its failure is
only logged. -/
def Spyglass.fetchFinish (s : Spyglass) (jobName buildID : String) (sizeLimit : Int)
    (lp : List Artifact × Bool) : List Artifact :=
  if lp.2 then
    match s.podLogArtifact jobName buildID sizeLimit with
    | .error _ => lp.1
    | .ok art => lp.1 ++ [art]
  else lp.1

/-- `artifacts.go` lines 102-108: the job name derived from a trimmed GCS
key, the second-to-last `/`-segment, or `""` when fewer than two segments
exist. -/
def gcsJobName (gcsKey : String) : String :=
  let parts := goSplitSlash gcsKey
  if parts.length < 2 then "" else parts.getD (parts.length - 2) ""

/-- `artifacts.go` lines 102-108: the build ID derived from a trimmed GCS
key, the last `/`-segment, or `""` when fewer than two segments exist. -/
def gcsBuildID (gcsKey : String) : String :=
  let parts := goSplitSlash gcsKey
  if parts.length < 2 then "" else parts.getD (parts.length - 1) ""

/-- `artifacts.go` lines 116-118: the GCS key a job-addressed
`FetchArtifacts` call uses, `""` when `prowToGCS` fails (only logged). -/
def Spyglass.prowGCSKeyOrEmpty (s : Spyglass) (key : String) : String :=
  match s.prowToGCS key with
  | .ok k => k
  | .error _ => ""

/-- The GCS key `FetchArtifacts` hands to the fetch loop (`artifacts.go`
lines 100-118): the key with one trailing separator trimmed for a
storage-addressed reference, the resolved key (or `""`) for a job-addressed
one. -/
def Spyglass.fetchGCSKey (s : Spyglass) (keyType key : String) : String :=
  if keyType = s.gcsKeyType then trimSuffixSlash key
  else s.prowGCSKeyOrEmpty key

/-- The job name `FetchArtifacts` derives from the reference
(`artifacts.go` lines 100-115). -/
def Spyglass.fetchJobName (s : Spyglass) (keyType key : String) : String :=
  if keyType = s.gcsKeyType then gcsJobName (trimSuffixSlash key)
  else (goSplitSlash key).getD 0 ""

/-- The build ID `FetchArtifacts` derives from the reference
(`artifacts.go` lines 100-115). -/
def Spyglass.fetchBuildID (s : Spyglass) (keyType key : String) : String :=
  if keyType = s.gcsKeyType then gcsBuildID (trimSuffixSlash key)
  else (goSplitSlash key).getD 1 ""

/-- `artifacts.go` lines 89-154: `Spyglass.FetchArtifacts` (the `podName`
parameter is unused by the body, as in the source). -/
def Spyglass.FetchArtifacts (s : Spyglass) (src podName : String) (sizeLimit : Int)
    (artifactNames : List String) : List Artifact × Option String :=
  match splitSrc src with
  | .error e => ([], some ("error parsing src: " ++ e))
  | .ok (keyType, key) =>
    if keyType = s.gcsKeyType then
      (s.fetchFinish (s.fetchJobName keyType key) (s.fetchBuildID keyType key) sizeLimit
        (s.fetchLoop (s.fetchGCSKey keyType key) sizeLimit artifactNames), none)
    else if keyType = s.prowKeyType then
      if (goSplitSlash key).length ≠ 2 then
        ([], some ("key " ++ key ++ " incorrectly formatted"))
      else
        (s.fetchFinish (s.fetchJobName keyType key) (s.fetchBuildID keyType key) sizeLimit
          (s.fetchLoop (s.fetchGCSKey keyType key) sizeLimit artifactNames), none)
    else ([], some ("Invalid src: " ++ src))


/-- Modelled from the spec: the key "with trailing separators trimmed" --
every trailing separator removed. Stated only to compare the spec's wording
with what the code computes. -/
def specTrimTrailing (s : String) : String :=
  ⟨(s.data.reverse.dropWhile (fun c => c = '/')).reverse⟩

/-- A concrete receiver with healthy collaborators, for witnesses. -/
def sampleSpyglass : Spyglass where
  gcsKeyType := "gcs"
  prowKeyType := "prowjob"
  jobURLPrefix := "https://view/"
  getProwJob := fun jn bid => .ok ⟨⟨"https://view/bucket/" ++ jn ++ "/" ++ bid⟩⟩
  gcsArtifacts := fun _ => (["a.txt"], none)
  gcsArtifact := fun _ n lim => .ok ⟨n, lim⟩
  artifactSize := fun _ => .ok 7
  podLogArtifact := fun _ _ lim => .ok ⟨"build-log.txt", lim⟩

/-- A receiver whose listing collaborator fails while still returning a list
that already holds "build-log.txt". -/
def listFailSpyglass : Spyglass where
  gcsKeyType := "gcs"
  prowKeyType := "prowjob"
  jobURLPrefix := "https://view/"
  getProwJob := fun _ _ => .error "lookup down"
  gcsArtifacts := fun _ => (["build-log.txt"], some "listing failed")
  gcsArtifact := fun _ n lim => .ok ⟨n, lim⟩
  artifactSize := fun _ => .ok 7
  podLogArtifact := fun _ _ lim => .ok ⟨"build-log.txt", lim⟩

/-- A receiver whose size probe fails exactly on the canonical log name. -/
def probeFailSpyglass : Spyglass where
  gcsKeyType := "gcs"
  prowKeyType := "prowjob"
  jobURLPrefix := ""
  getProwJob := fun jn bid => .ok ⟨⟨"bucket/" ++ jn ++ "/" ++ bid⟩⟩
  gcsArtifacts := fun _ => (["a.txt", "build-log.txt"], none)
  gcsArtifact := fun _ n lim => .ok ⟨n, lim⟩
  artifactSize := fun a => if a.name = "build-log.txt" then .error "object missing" else .ok 7
  podLogArtifact := fun _ _ lim => .ok ⟨"build-log.txt", lim⟩

/-- A receiver whose size probe fails exactly on "a.txt", a non-log name. -/
def nonLogFailSpyglass : Spyglass where
  gcsKeyType := "gcs"
  prowKeyType := "prowjob"
  jobURLPrefix := ""
  getProwJob := fun jn bid => .ok ⟨⟨"bucket/" ++ jn ++ "/" ++ bid⟩⟩
  gcsArtifacts := fun _ => (["a.txt", "build-log.txt"], none)
  gcsArtifact := fun _ n lim => .ok ⟨n, lim⟩
  artifactSize := fun a => if a.name = "a.txt" then .error "object missing" else .ok 7
  podLogArtifact := fun _ _ lim => .ok ⟨"build-log.txt", lim⟩

/-- A receiver whose job lookup always fails. -/
def lookupFailSpyglass : Spyglass where
  gcsKeyType := "gcs"
  prowKeyType := "prowjob"
  jobURLPrefix := "https://view/"
  getProwJob := fun _ _ => .error "lookup down"
  gcsArtifacts := fun _ => ([], some "bad path")
  gcsArtifact := fun _ _ _ => .error "bad path"
  artifactSize := fun _ => .ok 7
  podLogArtifact := fun _ _ lim => .ok ⟨"build-log.txt", lim⟩

/-- A receiver whose job record's URL does not start with the configured
prefix. -/
def mismatchSpyglass : Spyglass where
  gcsKeyType := "gcs"
  prowKeyType := "prowjob"
  jobURLPrefix := "https://view/"
  getProwJob := fun _ _ => .ok ⟨⟨"http://elsewhere/x"⟩⟩
  gcsArtifacts := fun _ => ([], some "bad path")
  gcsArtifact := fun _ _ _ => .error "bad path"
  artifactSize := fun _ => .ok 7
  podLogArtifact := fun _ _ lim => .ok ⟨"build-log.txt", lim⟩

/-! ### Shared lemmas about the string operations and the fetch loop -/

theorem strMk_data (s : String) : (⟨s.data⟩ : String) = s := by
  cases s
  rfl

theorem strData_append (a b : String) : (a ++ b).data = a.data ++ b.data := by
  cases a
  cases b
  rfl

theorem splitFirstSlash_eq_none (l : List Char) (h : '/' ∉ l) :
    splitFirstSlash l = none := by
  induction l with
  | nil => rfl
  | cons c cs ih =>
    rw [List.mem_cons, not_or] at h
    have hc : ¬ c = '/' := fun e => h.1 e.symm
    simp [splitFirstSlash, hc, ih h.2]

theorem splitFirstSlash_append (l r : List Char) (h : '/' ∉ l) :
    splitFirstSlash (l ++ '/' :: r) = some (l, r) := by
  induction l with
  | nil => simp [splitFirstSlash]
  | cons c cs ih =>
    rw [List.mem_cons, not_or] at h
    have hc : ¬ c = '/' := fun e => h.1 e.symm
    simp [splitFirstSlash, hc, ih h.2]

theorem splitFirstSlash_shape (l a b : List Char) (h : splitFirstSlash l = some (a, b)) :
    '/' ∉ a ∧ l = a ++ '/' :: b := by
  induction l generalizing a b with
  | nil => simp [splitFirstSlash] at h
  | cons c cs ih =>
    by_cases hc : c = '/'
    · subst hc
      simp [splitFirstSlash] at h
      obtain ⟨ha, hb⟩ := h
      subst ha
      subst hb
      simp
    · simp only [splitFirstSlash, if_neg hc] at h
      cases hcs : splitFirstSlash cs with
      | none => rw [hcs] at h; simp at h
      | some p =>
        obtain ⟨a', b'⟩ := p
        rw [hcs] at h
        simp at h
        obtain ⟨ha, hb⟩ := h
        obtain ⟨h1, h2⟩ := ih a' b' hcs
        subst hb
        rw [← ha]
        refine ⟨?_, by rw [h2]; rfl⟩
        rw [List.mem_cons, not_or]
        exact ⟨fun e => hc e.symm, h1⟩

theorem mkSrc_data (kt k : String) : (kt ++ "/" ++ k).data = kt.data ++ '/' :: k.data := by
  rw [strData_append, strData_append]
  have hsl : ("/" : String).data = ['/'] := rfl
  rw [hsl, List.append_assoc]
  rfl

theorem splitSrc_mk (kt k : String) (h : '/' ∉ kt.data) :
    splitSrc (kt ++ "/" ++ k) = .ok (kt, k) := by
  rw [splitSrc, mkSrc_data, splitFirstSlash_append _ _ h]

theorem splitSrc_no_slash (src : String) (h : '/' ∉ src.data) :
    splitSrc src = .error ("invalid src " ++ src ++ ": expected <key-type>/<key>") := by
  rw [splitSrc, splitFirstSlash_eq_none _ h]

theorem splitSrc_ok_shape (src kt k : String) (h : splitSrc src = .ok (kt, k)) :
    '/' ∉ kt.data ∧ src.data = kt.data ++ '/' :: k.data := by
  rw [splitSrc] at h
  cases hs : splitFirstSlash src.data with
  | none => rw [hs] at h; simp at h
  | some p =>
    obtain ⟨a, b⟩ := p
    rw [hs] at h
    simp only [Except.ok.injEq, Prod.mk.injEq] at h
    obtain ⟨h1, h2⟩ := h
    obtain ⟨hna, heq⟩ := splitFirstSlash_shape _ _ _ hs
    subst h1
    subst h2
    exact ⟨hna, heq⟩

theorem fetchLoop_fst (s : Spyglass) (gcsKey : String) (sizeLimit : Int) (names : List String) :
    (s.fetchLoop gcsKey sizeLimit names).1
      = names.filterMap (fun n => s.fetchStep gcsKey n sizeLimit) := by
  induction names with
  | nil => rfl
  | cons n rest ih =>
    simp only [Spyglass.fetchLoop]
    cases hstep : s.fetchStep gcsKey n sizeLimit with
    | none =>
      by_cases hn : n = "build-log.txt"
      · subst hn
        simp [hstep, ih, List.filterMap_cons]
      · simp [hstep, hn, ih, List.filterMap_cons]
    | some a => simp [hstep, ih, List.filterMap_cons]

theorem fetchLoop_snd (s : Spyglass) (gcsKey : String) (sizeLimit : Int) (names : List String) :
    (s.fetchLoop gcsKey sizeLimit names).2
      = names.any (fun n => n == "build-log.txt" && (s.fetchStep gcsKey n sizeLimit).isNone) := by
  induction names with
  | nil => rfl
  | cons n rest ih =>
    simp only [Spyglass.fetchLoop]
    cases hstep : s.fetchStep gcsKey n sizeLimit with
    | none =>
      by_cases hn : n = "build-log.txt"
      · subst hn
        simp [hstep, List.any_cons]
      · simp [hstep, hn, ih, List.any_cons]
    | some a => simp [hstep, ih, List.any_cons]

theorem goHasPrefix_append (p sfx : String) : goHasPrefix (p ++ sfx) p = true := by
  rw [goHasPrefix, strData_append]
  simp [List.isPrefixOf_iff_prefix]

theorem dropPrefixStr_append (p sfx : String) : dropPrefixStr (p ++ sfx) p = sfx := by
  rw [dropPrefixStr, strData_append, List.drop_left]

theorem prowToGCS_ok_lookup (s : Spyglass) (prowKey jobName buildID : String) (job : ProwJob)
    (hparts : goSplitSlash prowKey = [jobName, buildID])
    (hlookup : s.getProwJob jobName buildID = .ok job) :
    s.prowToGCS prowKey =
      if !goHasPrefix job.Status.URL s.jobURLPrefix then
        .error ("unexpected job URL " ++ job.Status.URL ++
          " when finding GCS path: expected something starting with " ++ s.jobURLPrefix)
      else .ok (dropPrefixStr job.Status.URL s.jobURLPrefix) := by
  simp only [Spyglass.prowToGCS, hparts, List.length_cons, List.length_nil]
  norm_num [List.getD_cons_zero, List.getD_cons_succ, hlookup]

theorem ListArtifacts_recognized (s : Spyglass) (src kt key : String)
    (hs : splitSrc src = .ok (kt, key))
    (hrec : kt = s.gcsKeyType ∨ kt = s.prowKeyType) :
    s.ListArtifacts src = (listWithLogPolicy (s.gcsArtifacts (s.listGCSKey kt key)), none) := by
  simp only [Spyglass.ListArtifacts, hs]
  rw [if_pos hrec]

theorem listWithLogPolicy_count (o : List String × Option String)
    (hcount : o.1.count "build-log.txt" ≤ 1)
    (hfail : o.2.isSome = true → o.1.count "build-log.txt" = 0) :
    (listWithLogPolicy o).count "build-log.txt" = 1 := by
  obtain ⟨names, err⟩ := o
  have hcount2 : names.count "build-log.txt" ≤ 1 := hcount
  cases err with
  | some e =>
    have h0 : names.count "build-log.txt" = 0 := hfail rfl
    simp [listWithLogPolicy, List.count_append, h0]
  | none =>
    by_cases hmem : "build-log.txt" ∈ names
    · have h1 : 0 < names.count "build-log.txt" := List.count_pos_iff.mpr hmem
      simp only [listWithLogPolicy, Option.isSome_none, Bool.false_or]
      rw [if_neg (by simp [hmem])]
      omega
    · simp [listWithLogPolicy, hmem, List.count_append, List.count_eq_zero.mpr hmem]

theorem FetchArtifacts_prow (s : Spyglass) (src key podName : String) (sizeLimit : Int)
    (names : List String)
    (hs : splitSrc src = .ok (s.prowKeyType, key))
    (hne : s.prowKeyType ≠ s.gcsKeyType)
    (hlen : (goSplitSlash key).length = 2) :
    s.FetchArtifacts src podName sizeLimit names
      = (s.fetchFinish ((goSplitSlash key).getD 0 "") ((goSplitSlash key).getD 1 "")
          sizeLimit (s.fetchLoop (s.prowGCSKeyOrEmpty key) sizeLimit names), none) := by
  simp [Spyglass.FetchArtifacts, hs, hne, hlen, Spyglass.fetchGCSKey, Spyglass.fetchJobName,
    Spyglass.fetchBuildID]

theorem FetchArtifacts_recognized (s : Spyglass) (src kt key podName : String) (sizeLimit : Int)
    (names : List String)
    (hs : splitSrc src = .ok (kt, key))
    (hbranch : kt = s.gcsKeyType ∨ (kt = s.prowKeyType ∧ kt ≠ s.gcsKeyType ∧
      (goSplitSlash key).length = 2)) :
    s.FetchArtifacts src podName sizeLimit names
      = (s.fetchFinish (s.fetchJobName kt key) (s.fetchBuildID kt key) sizeLimit
          (s.fetchLoop (s.fetchGCSKey kt key) sizeLimit names), none) := by
  rcases hbranch with hg | ⟨hp, hne, hlen⟩
  · subst hg
    simp [Spyglass.FetchArtifacts, hs]
  · subst hp
    simp [Spyglass.FetchArtifacts, hs, hne, hlen]

theorem fetchStep_name (s : Spyglass) (gcsKey n : String) (sizeLimit : Int) (a : Artifact)
    (hname : ∀ k nm lim art, s.gcsArtifact k nm lim = .ok art → art.name = nm)
    (h : s.fetchStep gcsKey n sizeLimit = some a) : a.name = n := by
  rw [Spyglass.fetchStep] at h
  cases hga : s.gcsArtifact gcsKey n sizeLimit with
  | error e => rw [hga] at h; simp at h
  | ok art =>
    rw [hga] at h
    simp only [] at h
    cases hsz : s.artifactSize art with
    | error e => rw [hsz] at h; simp at h
    | ok v =>
      rw [hsz] at h
      simp only [Option.some.injEq] at h
      rw [← h]
      exact hname _ _ _ _ hga

theorem fetchLoop_flag_true (s : Spyglass) (gcsKey : String) (sizeLimit : Int)
    (names : List String) (hmem : "build-log.txt" ∈ names)
    (hlog : s.fetchStep gcsKey "build-log.txt" sizeLimit = none) :
    (s.fetchLoop gcsKey sizeLimit names).2 = true := by
  rw [fetchLoop_snd, List.any_eq_true]
  exact ⟨"build-log.txt", hmem, by simp [hlog]⟩

theorem fetchLoop_flag_false (s : Spyglass) (gcsKey : String) (sizeLimit : Int)
    (names : List String)
    (h : ∀ n ∈ names, n = "build-log.txt" → (s.fetchStep gcsKey n sizeLimit).isSome = true) :
    (s.fetchLoop gcsKey sizeLimit names).2 = false := by
  rw [fetchLoop_snd, List.any_eq_false]
  intro n hn
  by_cases he : n = "build-log.txt"
  · subst he
    obtain ⟨a, ha⟩ := Option.isSome_iff_exists.mp (h _ hn rfl)
    simp [ha]
  · simp [he]

theorem failed_not_in_filterMap (s : Spyglass) (gcsKey n0 : String) (sizeLimit : Int)
    (names : List String)
    (hname : ∀ k nm lim art, s.gcsArtifact k nm lim = .ok art → art.name = nm)
    (hfailn : s.fetchStep gcsKey n0 sizeLimit = none) :
    n0 ∉ (names.filterMap (fun n => s.fetchStep gcsKey n sizeLimit)).map Artifact.name := by
  intro hmem
  rw [List.mem_map] at hmem
  obtain ⟨a, ha, han⟩ := hmem
  rw [List.mem_filterMap] at ha
  obtain ⟨n, hn, hsome⟩ := ha
  have heq : n = n0 := by
    rw [← fetchStep_name s gcsKey n sizeLimit a hname hsome, han]
  rw [heq, hfailn] at hsome
  exact Option.noConfusion hsome

/-! ### Claims -/

/-- C3: for every reference string containing no separator character,
`ListArtifacts` and `FetchArtifacts` each return an error together with an
empty result list (no partial results). -/
theorem C3_no_separator_error (s : Spyglass) (src podName : String) (sizeLimit : Int)
    (artifactNames : List String) (h : '/' ∉ src.data) :
    (s.ListArtifacts src).1 = [] ∧ (s.ListArtifacts src).2.isSome = true ∧
    (s.FetchArtifacts src podName sizeLimit artifactNames).1 = [] ∧
    (s.FetchArtifacts src podName sizeLimit artifactNames).2.isSome = true := by
  rw [Spyglass.ListArtifacts, Spyglass.FetchArtifacts, splitSrc_no_slash src h]
  simp

theorem C3_no_separator_error_witness :
    (sampleSpyglass.ListArtifacts "abc").1 = [] ∧
    (sampleSpyglass.ListArtifacts "abc").2.isSome = true ∧
    (sampleSpyglass.FetchArtifacts "abc" "pod" 500 ["a.txt"]).1 = [] ∧
    (sampleSpyglass.FetchArtifacts "abc" "pod" 500 ["a.txt"]).2.isSome = true :=
  C3_no_separator_error sampleSpyglass "abc" "pod" 500 ["a.txt"] (by decide)

/-- C9 as stated is false: the parser accepts "gcs/", a string containing a
separator, and produces the empty key. -/
theorem C9_counterexample :
    ¬ (∀ src kt k : String, splitSrc src = .ok (kt, k) → k ≠ "") := by
  intro hall
  exact hall "gcs/" "gcs" "" (by rfl) rfl

/-- C9 amended: for every accepted input the produced key type contains no
separator and the input is exactly key type, separator, key -- but the key
itself may be empty. -/
theorem C9_amended_split_shape (src kt k : String) (h : splitSrc src = .ok (kt, k)) :
    '/' ∉ kt.data ∧ src = kt ++ "/" ++ k := by
  obtain ⟨h1, h2⟩ := splitSrc_ok_shape src kt k h
  refine ⟨h1, String.ext ?_⟩
  rw [mkSrc_data]
  exact h2

theorem C9_amended_split_shape_witness :
    '/' ∉ ("prowjob" : String).data ∧ ("prowjob/j/1" : String) = "prowjob" ++ "/" ++ "j/1" :=
  C9_amended_split_shape "prowjob/j/1" "prowjob" "j/1" (by rfl)

/-- C4: for a well-formed job key whose lookup succeeds, resolution strips
the configured prefix from the job's status URL, and fails with the
prefix-mismatch error when the URL does not start with that prefix. -/
theorem C4_prow_resolution (s : Spyglass) (prowKey jobName buildID : String) (job : ProwJob)
    (hparts : goSplitSlash prowKey = [jobName, buildID])
    (hlookup : s.getProwJob jobName buildID = .ok job) :
    (∀ sfx : String, job.Status.URL = s.jobURLPrefix ++ sfx →
      s.prowToGCS prowKey = .ok sfx) ∧
    (goHasPrefix job.Status.URL s.jobURLPrefix = false →
      s.prowToGCS prowKey = .error ("unexpected job URL " ++ job.Status.URL ++
        " when finding GCS path: expected something starting with " ++ s.jobURLPrefix)) := by
  have hred := prowToGCS_ok_lookup s prowKey jobName buildID job hparts hlookup
  constructor
  · intro sfx hurl
    rw [hred, hurl, goHasPrefix_append]
    simp [dropPrefixStr_append]
  · intro hnp
    rw [hred, hnp]
    simp

theorem C4_prow_resolution_witness :
    sampleSpyglass.prowToGCS "j/1" = .ok "bucket/j/1" ∧
    mismatchSpyglass.prowToGCS "j/1" = .error ("unexpected job URL http://elsewhere/x" ++
      " when finding GCS path: expected something starting with https://view/") := by
  constructor
  · exact (C4_prow_resolution sampleSpyglass "j/1" "j" "1" ⟨⟨"https://view/bucket/j/1"⟩⟩
      (by rfl) (by rfl)).1 "bucket/j/1" (by rfl)
  · exact (C4_prow_resolution mismatchSpyglass "j/1" "j" "1" ⟨⟨"http://elsewhere/x"⟩⟩
      (by rfl) (by rfl)).2 (by rfl)

/-- C1 as stated is false: when the listing collaborator fails while
returning a list that already holds "build-log.txt", a successful
`ListArtifacts` result holds the canonical name twice. -/
theorem C1_counterexample :
    (listFailSpyglass.ListArtifacts "gcs/b/j/1").2 = none ∧
    (listFailSpyglass.ListArtifacts "gcs/b/j/1").1.count "build-log.txt" = 2 := by
  constructor <;> rfl

/-- C1 amended: for every recognized reference, a `ListArtifacts` result
holds "build-log.txt" exactly once, provided the listing collaborator's
returned list holds it at most once and not at all when the listing
failed. -/
theorem C1_amended_log_exactly_once (s : Spyglass) (src kt key : String)
    (hs : splitSrc src = .ok (kt, key))
    (hrec : kt = s.gcsKeyType ∨ kt = s.prowKeyType)
    (hcount : (s.gcsArtifacts (s.listGCSKey kt key)).1.count "build-log.txt" ≤ 1)
    (hfail : (s.gcsArtifacts (s.listGCSKey kt key)).2.isSome = true →
      (s.gcsArtifacts (s.listGCSKey kt key)).1.count "build-log.txt" = 0) :
    (s.ListArtifacts src).1.count "build-log.txt" = 1 ∧ (s.ListArtifacts src).2 = none := by
  rw [ListArtifacts_recognized s src kt key hs hrec]
  exact ⟨listWithLogPolicy_count _ hcount hfail, rfl⟩

theorem C1_amended_log_exactly_once_witness :
    (sampleSpyglass.ListArtifacts "gcs/k").1.count "build-log.txt" = 1 ∧
    (sampleSpyglass.ListArtifacts "gcs/k").2 = none :=
  C1_amended_log_exactly_once sampleSpyglass "gcs/k" "gcs" "k" (by rfl) (Or.inl rfl)
    (by decide) (by decide)

/-- C2 as stated is false: "foo/bar" contains a separator (it parses), yet
both operations return an error because the key type is unrecognized. -/
theorem C2_counterexample :
    splitSrc "foo/bar" = .ok ("foo", "bar") ∧
    (sampleSpyglass.ListArtifacts "foo/bar").2.isSome = true ∧
    (sampleSpyglass.FetchArtifacts "foo/bar" "pod" 10 []).2.isSome = true :=
  ⟨by rfl, by rfl, by rfl⟩

/-- C2 amended: `ListArtifacts` errors exactly on a malformed reference or
an unrecognized key type; `FetchArtifacts` errors exactly on a malformed
reference, an unrecognized key type, or a job-addressed key that does not
split into exactly two parts; every other input yields a successful
result. -/
theorem C2_amended_error_iff (s : Spyglass) (src podName : String) (sizeLimit : Int)
    (artifactNames : List String) :
    ((s.ListArtifacts src).2.isSome = true ↔
      (∃ e, splitSrc src = .error e) ∨
      (∃ kt key, splitSrc src = .ok (kt, key) ∧ kt ≠ s.gcsKeyType ∧ kt ≠ s.prowKeyType)) ∧
    ((s.FetchArtifacts src podName sizeLimit artifactNames).2.isSome = true ↔
      (∃ e, splitSrc src = .error e) ∨
      (∃ kt key, splitSrc src = .ok (kt, key) ∧ kt ≠ s.gcsKeyType ∧ kt ≠ s.prowKeyType) ∨
      (∃ kt key, splitSrc src = .ok (kt, key) ∧ kt = s.prowKeyType ∧ kt ≠ s.gcsKeyType ∧
        (goSplitSlash key).length ≠ 2)) := by
  cases hs : splitSrc src with
  | error e =>
    simp [Spyglass.ListArtifacts, Spyglass.FetchArtifacts, hs]
  | ok p =>
    obtain ⟨kt, key⟩ := p
    by_cases hg : kt = s.gcsKeyType
    · subst hg
      simp [Spyglass.ListArtifacts, Spyglass.FetchArtifacts, hs]
    · by_cases hp : kt = s.prowKeyType
      · subst hp
        by_cases hl : (goSplitSlash key).length = 2
        · simp [Spyglass.ListArtifacts, Spyglass.FetchArtifacts, hs, hg, hl]
        · simp [Spyglass.ListArtifacts, Spyglass.FetchArtifacts, hs, hg, hl]
          exact ⟨s.prowKeyType, key, ⟨rfl, rfl⟩, rfl, hg, hl⟩
      · simp [Spyglass.ListArtifacts, Spyglass.FetchArtifacts, hs, hg, hp]

/-- C5 as stated is false: `ListArtifacts` uses the direct key verbatim
(with its trailing separator), and `FetchArtifacts` removes only one
trailing separator, not all of them. -/
theorem C5_counterexample :
    sampleSpyglass.listGCSKey "gcs" "p/" ≠ specTrimTrailing "p/" ∧
    sampleSpyglass.fetchGCSKey "gcs" "p//" ≠ specTrimTrailing "p//" := by
  constructor <;> decide

/-- C5 amended: for direct references the path handed to the storage
collaborator is the key verbatim in `ListArtifacts`, and the key with at
most one trailing separator removed in `FetchArtifacts`. -/
theorem C5_amended_direct_paths (s : Spyglass) (key podName : String) (sizeLimit : Int)
    (artifactNames : List String) (h : '/' ∉ s.gcsKeyType.data) :
    s.ListArtifacts (s.gcsKeyType ++ "/" ++ key)
      = (listWithLogPolicy (s.gcsArtifacts key), none) ∧
    s.FetchArtifacts (s.gcsKeyType ++ "/" ++ key) podName sizeLimit artifactNames
      = (s.fetchFinish (gcsJobName (trimSuffixSlash key)) (gcsBuildID (trimSuffixSlash key))
          sizeLimit (s.fetchLoop (trimSuffixSlash key) sizeLimit artifactNames), none) := by
  have hs := splitSrc_mk s.gcsKeyType key h
  constructor
  · simp [Spyglass.ListArtifacts, hs, Spyglass.listGCSKey]
  · simp [Spyglass.FetchArtifacts, hs, Spyglass.fetchGCSKey, Spyglass.fetchJobName,
      Spyglass.fetchBuildID]

theorem C5_amended_direct_paths_witness :
    sampleSpyglass.ListArtifacts (sampleSpyglass.gcsKeyType ++ "/" ++ "p/")
      = (listWithLogPolicy (sampleSpyglass.gcsArtifacts "p/"), none) ∧
    sampleSpyglass.FetchArtifacts (sampleSpyglass.gcsKeyType ++ "/" ++ "p/") "pod" 10 ["a.txt"]
      = (sampleSpyglass.fetchFinish (gcsJobName (trimSuffixSlash "p/"))
          (gcsBuildID (trimSuffixSlash "p/")) 10
          (sampleSpyglass.fetchLoop (trimSuffixSlash "p/") 10 ["a.txt"]), none) :=
  C5_amended_direct_paths sampleSpyglass "p/" "pod" 10 ["a.txt"] (by decide)

/-- C6: for every FetchArtifacts call -- storage-addressed or job-addressed
-- in which the handle-or-probe step fails for "build-log.txt" and only for
it, the pod-log flag is set, the call still succeeds, the result is the
successfully probed handles followed by the pod-log collaborator's handle
for the job name and build ID the call derives from the original reference
(`fetchJobName`/`fetchBuildID`: the two halves of a job key, the last two
trimmed-key segments of a direct key), or nothing when that collaborator
fails; the log never comes from storage, and every other requested name's
handle is kept.  The sequential loop consults the pod-log collaborator at
most once, at exactly this pair. -/
theorem C6_log_fallback (s : Spyglass) (src kt key podName : String)
    (sizeLimit : Int) (names : List String)
    (hs : splitSrc src = .ok (kt, key))
    (hbranch : kt = s.gcsKeyType ∨ (kt = s.prowKeyType ∧ kt ≠ s.gcsKeyType ∧
      (goSplitSlash key).length = 2))
    (hmem : "build-log.txt" ∈ names)
    (hlog : s.fetchStep (s.fetchGCSKey kt key) "build-log.txt" sizeLimit = none)
    (hothers : ∀ n ∈ names, n ≠ "build-log.txt" →
      (s.fetchStep (s.fetchGCSKey kt key) n sizeLimit).isSome = true)
    (hname : ∀ k nm lim art, s.gcsArtifact k nm lim = .ok art → art.name = nm) :
    (s.fetchLoop (s.fetchGCSKey kt key) sizeLimit names).2 = true ∧
    (s.FetchArtifacts src podName sizeLimit names).2 = none ∧
    (s.FetchArtifacts src podName sizeLimit names).1
      = (names.filterMap (fun n => s.fetchStep (s.fetchGCSKey kt key) n sizeLimit))
        ++ (match s.podLogArtifact (s.fetchJobName kt key) (s.fetchBuildID kt key) sizeLimit with
            | .ok a => [a]
            | .error _ => []) ∧
    "build-log.txt"
      ∉ (names.filterMap (fun n => s.fetchStep (s.fetchGCSKey kt key) n sizeLimit)).map
          Artifact.name ∧
    (∀ n ∈ names, n ≠ "build-log.txt" →
      ∃ a, s.fetchStep (s.fetchGCSKey kt key) n sizeLimit = some a ∧
        a ∈ (s.FetchArtifacts src podName sizeLimit names).1) := by
  have hred := FetchArtifacts_recognized s src kt key podName sizeLimit names hs hbranch
  have hflag := fetchLoop_flag_true s (s.fetchGCSKey kt key) sizeLimit names hmem hlog
  have hres : (s.FetchArtifacts src podName sizeLimit names).1
      = (names.filterMap (fun n => s.fetchStep (s.fetchGCSKey kt key) n sizeLimit))
        ++ (match s.podLogArtifact (s.fetchJobName kt key) (s.fetchBuildID kt key) sizeLimit with
            | .ok a => [a]
            | .error _ => []) := by
    rw [hred]
    simp only [Spyglass.fetchFinish, hflag, if_true]
    rw [fetchLoop_fst]
    cases s.podLogArtifact (s.fetchJobName kt key) (s.fetchBuildID kt key) sizeLimit <;> simp
  refine ⟨hflag, by rw [hred], hres,
    failed_not_in_filterMap s (s.fetchGCSKey kt key) "build-log.txt" sizeLimit names hname hlog,
    ?_⟩
  intro n hn hne2
  obtain ⟨a, ha⟩ := Option.isSome_iff_exists.mp (hothers n hn hne2)
  refine ⟨a, ha, ?_⟩
  rw [hres]
  exact List.mem_append_left _ (List.mem_filterMap.mpr ⟨n, hn, ha⟩)

theorem C6_log_fallback_witness :
    (probeFailSpyglass.FetchArtifacts "gcs/j/1" "pod" 10 ["a.txt", "build-log.txt"]).2
      = none :=
  (C6_log_fallback probeFailSpyglass "gcs/j/1" "gcs" "j/1" "pod" 10
    ["a.txt", "build-log.txt"] (by rfl) (Or.inl rfl) (by decide) (by rfl)
    (by decide)
    (fun k nm lim art h => by
      simp only [probeFailSpyglass] at h
      simp only [Except.ok.injEq] at h
      rw [← h])).2.1

/-- C7: when the handle-or-probe step fails for a requested name other than
"build-log.txt" (and only for it), the pod-log flag stays unset, the call
succeeds with exactly the successfully probed handles, the failed name is
absent from the result, and every other requested name's handle is kept. -/
theorem C7_nonlog_failure_dropped (s : Spyglass) (src kt key n0 podName : String)
    (sizeLimit : Int) (names : List String)
    (hs : splitSrc src = .ok (kt, key))
    (hbranch : kt = s.gcsKeyType ∨ (kt = s.prowKeyType ∧ kt ≠ s.gcsKeyType ∧
      (goSplitSlash key).length = 2))
    (hn : n0 ∈ names) (hnlog : n0 ≠ "build-log.txt")
    (hfailn : s.fetchStep (s.fetchGCSKey kt key) n0 sizeLimit = none)
    (hothers : ∀ m ∈ names, m ≠ n0 →
      (s.fetchStep (s.fetchGCSKey kt key) m sizeLimit).isSome = true)
    (hname : ∀ k nm lim art, s.gcsArtifact k nm lim = .ok art → art.name = nm) :
    (s.fetchLoop (s.fetchGCSKey kt key) sizeLimit names).2 = false ∧
    s.FetchArtifacts src podName sizeLimit names
      = (names.filterMap (fun m => s.fetchStep (s.fetchGCSKey kt key) m sizeLimit), none) ∧
    n0 ∉ ((names.filterMap (fun m => s.fetchStep (s.fetchGCSKey kt key) m sizeLimit)).map
        Artifact.name) ∧
    (∀ m ∈ names, m ≠ n0 →
      ∃ a, s.fetchStep (s.fetchGCSKey kt key) m sizeLimit = some a ∧
        a ∈ (s.FetchArtifacts src podName sizeLimit names).1) := by
  have hred := FetchArtifacts_recognized s src kt key podName sizeLimit names hs hbranch
  have hflag : (s.fetchLoop (s.fetchGCSKey kt key) sizeLimit names).2 = false := by
    apply fetchLoop_flag_false
    intro m hm hmeq
    exact hothers m hm (fun e => hnlog (e ▸ hmeq))
  have hres : s.FetchArtifacts src podName sizeLimit names
      = (names.filterMap (fun m => s.fetchStep (s.fetchGCSKey kt key) m sizeLimit), none) := by
    rw [hred]
    simp only [Spyglass.fetchFinish, hflag, if_false, Bool.false_eq_true]
    rw [fetchLoop_fst]
  refine ⟨hflag, hres,
    failed_not_in_filterMap s (s.fetchGCSKey kt key) n0 sizeLimit names hname hfailn, ?_⟩
  intro m hm hmne
  obtain ⟨a, ha⟩ := Option.isSome_iff_exists.mp (hothers m hm hmne)
  refine ⟨a, ha, ?_⟩
  rw [hres]
  exact List.mem_filterMap.mpr ⟨m, hm, ha⟩

theorem C7_nonlog_failure_dropped_witness :
    (nonLogFailSpyglass.fetchLoop (nonLogFailSpyglass.fetchGCSKey "gcs" "b/1") 10
      ["a.txt", "build-log.txt"]).2 = false :=
  (C7_nonlog_failure_dropped nonLogFailSpyglass "gcs/b/1" "gcs" "b/1" "a.txt" "pod" 10
    ["a.txt", "build-log.txt"] (by rfl) (Or.inl rfl) (by decide) (by decide) (by rfl)
    (by decide)
    (fun k nm lim art h => by
      simp only [nonLogFailSpyglass] at h
      simp only [Except.ok.injEq] at h
      rw [← h])).1

/-- C8: a well-formed job-addressed reference whose job-to-storage
resolution fails does not abort either operation: both succeed, handing the
empty storage path to the storage collaborator. -/
theorem C8_resolution_failure_degrades (s : Spyglass) (src key podName e : String)
    (sizeLimit : Int) (names : List String)
    (hs : splitSrc src = .ok (s.prowKeyType, key))
    (hne : s.prowKeyType ≠ s.gcsKeyType)
    (hlen : (goSplitSlash key).length = 2)
    (herr : s.prowToGCS key = .error e) :
    s.ListArtifacts src = (listWithLogPolicy (s.gcsArtifacts ""), none) ∧
    s.FetchArtifacts src podName sizeLimit names
      = (s.fetchFinish ((goSplitSlash key).getD 0 "") ((goSplitSlash key).getD 1 "")
          sizeLimit (s.fetchLoop "" sizeLimit names), none) := by
  have hkey0 : s.prowGCSKeyOrEmpty key = "" := by
    simp [Spyglass.prowGCSKeyOrEmpty, herr]
  constructor
  · rw [ListArtifacts_recognized s src s.prowKeyType key hs (Or.inr rfl)]
    have hlk : s.listGCSKey s.prowKeyType key = "" := by
      simp [Spyglass.listGCSKey, hne, herr]
    rw [hlk]
  · rw [FetchArtifacts_prow s src key podName sizeLimit names hs hne hlen, hkey0]

theorem C8_resolution_failure_degrades_witness :
    lookupFailSpyglass.ListArtifacts "prowjob/j/1"
      = (listWithLogPolicy (lookupFailSpyglass.gcsArtifacts ""), none) :=
  (C8_resolution_failure_degrades lookupFailSpyglass "prowjob/j/1" "j/1" "pod"
    "Failed to get prow job from src j/1: lookup down" 10 ["build-log.txt"]
    (by rfl) (by decide) (by rfl) (by rfl)).1

/-- C10: a direct reference whose trimmed key has fewer than two
separator-delimited segments still fetches successfully, and a failed
"build-log.txt" probe triggers the pod-log fallback with empty job name and
empty build ID. -/
theorem C10_short_gcs_key_fallback (s : Spyglass) (src key podName : String)
    (sizeLimit : Int) (names : List String)
    (hs : splitSrc src = .ok (s.gcsKeyType, key))
    (hshort : (goSplitSlash (trimSuffixSlash key)).length < 2)
    (hmem : "build-log.txt" ∈ names)
    (hlog : s.fetchStep (trimSuffixSlash key) "build-log.txt" sizeLimit = none) :
    (s.FetchArtifacts src podName sizeLimit names).2 = none ∧
    (s.FetchArtifacts src podName sizeLimit names).1
      = (names.filterMap (fun m => s.fetchStep (trimSuffixSlash key) m sizeLimit))
        ++ (match s.podLogArtifact "" "" sizeLimit with
            | .ok a => [a]
            | .error _ => []) := by
  have hred : s.FetchArtifacts src podName sizeLimit names
      = (s.fetchFinish (gcsJobName (trimSuffixSlash key)) (gcsBuildID (trimSuffixSlash key))
          sizeLimit (s.fetchLoop (trimSuffixSlash key) sizeLimit names), none) := by
    simp [Spyglass.FetchArtifacts, hs, Spyglass.fetchGCSKey, Spyglass.fetchJobName,
      Spyglass.fetchBuildID]
  have hjn : gcsJobName (trimSuffixSlash key) = "" := by
    simp only [gcsJobName]
    rw [if_pos hshort]
  have hbid : gcsBuildID (trimSuffixSlash key) = "" := by
    simp only [gcsBuildID]
    rw [if_pos hshort]
  have hflag := fetchLoop_flag_true s (trimSuffixSlash key) sizeLimit names hmem hlog
  constructor
  · rw [hred]
  · rw [hred, hjn, hbid]
    simp only [Spyglass.fetchFinish, hflag, if_true]
    rw [fetchLoop_fst]
    cases s.podLogArtifact "" "" sizeLimit <;> simp

theorem C10_short_gcs_key_fallback_witness :
    (probeFailSpyglass.FetchArtifacts "gcs/p" "pod" 10 ["build-log.txt"]).2 = none :=
  (C10_short_gcs_key_fallback probeFailSpyglass "gcs/p" "p" "pod" 10 ["build-log.txt"]
    (by rfl) (by decide) (by decide) (by rfl)).1
